import Mathlib

/-!
Verification of the WACC calculator (src/wacc_app.py).

The whole engine works over real-valued scalars; we embed it over ℚ, which
is exact for every arithmetic operation the program performs (addition,
subtraction, multiplication, division, squaring).  Division by zero, which
in Python raises ZeroDivisionError, is modelled where it matters by
Option-valued variants built on a guarded division.
-/

namespace WaccApp

/-- Classification produced by the diagnostic branches of tab1
(lines 78-86): success / warning / error messages. -/
inductive Classification where
  | ValueCreationStrong
  | ValueCreationMarginal
  | ValueDestruction
deriving DecidableEq

/-- Line 11-13: cost of equity via CAPM, `rf + beta * (rm - rf)`. -/
def calcular_ke_capm (rf beta rm : ℚ) : ℚ :=
  rf + beta * (rm - rf)

/-- Lines 15-21: classic WACC.  `V = D + E`; if `V == 0` return `0`;
otherwise `wD = D / V`, `wE = E / V`, result `wE*rE + wD*rD*(1-T)`. -/
def calcular_wacc (D E rD rE T : ℚ) : ℚ :=
  let V := D + E
  if V = 0 then 0
  else
    let wD := D / V
    let wE := E / V
    wE * rE + wD * rD * (1 - T)

/-- Lines 23-30: Hamada relevering.  If `E == 0` return the beta unchanged
(comment in source: avoid division by zero); otherwise
`beta_unlevered * (1 + (1 - T) * (D / E))`. -/
def hamada_relever_beta (beta_unlev D E T : ℚ) : ℚ :=
  if E = 0 then beta_unlev
  else beta_unlev * (1 + (1 - T) * (D / E))

/-- The delevering expression of line 97,
`beta_atual / (1 + (1 - T_input) * (D_input / E_input))`, abstracted over
its four scalar inputs.  Note the source has no `E == 0` guard here. -/
def delever_beta (betaL D E T : ℚ) : ℚ :=
  betaL / (1 + (1 - T) * (D / E))

/-- Line 57: `spread_economico = roic_input - wacc_atual`. -/
def spread_economico (roic wacc : ℚ) : ℚ :=
  roic - wacc

/-- Line 58: `eva = (D_input + E_input) * spread_economico`. -/
def eva (D E spread : ℚ) : ℚ :=
  (D + E) * spread

/-- Lines 78-86: the diagnostic if/elif/else chain on `spread_economico`:
`> 0.02` success (strong creation), `elif > 0` warning (marginal),
otherwise error (value destruction). -/
def classify (spread : ℚ) : Classification :=
  if spread > 2/100 then Classification.ValueCreationStrong
  else if spread > 0 then Classification.ValueCreationMarginal
  else Classification.ValueDestruction

/-- Line 122: `risk_premium_debt = 0 if wd < 0.5 else (wd - 0.5) ** 2 * 0.5`. -/
def risk_premium_debt (wd : ℚ) : ℚ :=
  if wd < 1/2 then 0 else (wd - 1/2) ^ 2 * (1/2)

/-- Line 123: `new_kd = rD_input + risk_premium_debt`. -/
def new_kd (rD wd : ℚ) : ℚ :=
  rD + risk_premium_debt wd

/-- Lines 110-113 of the simulation loop: `de_ratio = 99` when
`we = 1 - wd` is at most `0.01`, else `wd / we`.  In the source this value
is computed and then never read again. -/
def de_ratio (wd : ℚ) : ℚ :=
  if 1 - wd ≤ 1/100 then 99 else wd / (1 - wd)

/-- Line 99: `np.linspace(0.0, 0.95, 50)` — fifty evenly spaced points,
`0 + (0.95 - 0) * k / 49` for `k = 0, ..., 49`. -/
def leverage_ratios : List ℚ :=
  (List.range 50).map (fun k : ℕ => (95/100 : ℚ) * (k : ℚ) / 49)

/-- Intermediate values produced by one iteration of the simulation loop
(lines 107-129). -/
structure SimPoint where
  beta_relevered : ℚ
  new_ke : ℚ
  kd : ℚ
  wacc : ℚ

/-- Lines 107-129: the body of the simulation loop for one sampled debt
weight `wd`.  Mirrors the source order: `we = 1 - wd`; `de_ratio`
(computed, but unused by the rest of the body); relever the beta with
`wd*100` and `we*100`; CAPM for the new Ke; risk premium for the new Kd;
weighted WACC. -/
def sim_step (beta_unlev rf_sim rm_sim rD T wd : ℚ) : SimPoint :=
  let we := 1 - wd
  let _unused := de_ratio wd
  let beta_relevered := hamada_relever_beta beta_unlev (wd * 100) (we * 100) T
  let ke := rf_sim + beta_relevered * (rm_sim - rf_sim)
  let kd := rD + risk_premium_debt wd
  let new_wacc := we * ke + wd * kd * (1 - T)
  ⟨beta_relevered, ke, kd, new_wacc⟩

/-- The flat record of scalar inputs the sidebar collects (lines 33-53). -/
structure AppInputs where
  D : ℚ
  E : ℚ
  T : ℚ
  rD : ℚ
  roic : ℚ
  usar_capm : Bool
  rf : ℚ
  beta : ℚ
  rm : ℚ
  rE_manual : ℚ

/-- Lines 45-53: `rE_final` is the CAPM value when the checkbox is on,
otherwise the manual rate. -/
def rE_final (i : AppInputs) : ℚ :=
  if i.usar_capm then calcular_ke_capm i.rf i.beta i.rm else i.rE_manual

/-- Line 56: the current WACC. -/
def wacc_atual (i : AppInputs) : ℚ :=
  calcular_wacc i.D i.E i.rD (rE_final i) i.T

/-- Line 96: `beta_atual = beta_input if usar_capm else 1.0`. -/
def beta_atual (i : AppInputs) : ℚ :=
  if i.usar_capm then i.beta else 1

/-- Line 97: the single delevering step from the user's structure. -/
def beta_unlevered (i : AppInputs) : ℚ :=
  delever_beta (beta_atual i) i.D i.E i.T

/-- Line 104: `rf_sim = rf_input if usar_capm else 0.04`. -/
def rf_sim (i : AppInputs) : ℚ :=
  if i.usar_capm then i.rf else 4/100

/-- Line 105: `rm_sim = rm_input if usar_capm else 0.10`. -/
def rm_sim (i : AppInputs) : ℚ :=
  if i.usar_capm then i.rm else 10/100

/-- Lines 99-129: the full simulated curve, one SimPoint per sampled
leverage ratio. -/
def curve (i : AppInputs) : List SimPoint :=
  leverage_ratios.map
    (sim_step (beta_unlevered i) (rf_sim i) (rm_sim i) i.rD i.T)

/-- Division as Python executes it on floats: ZeroDivisionError (modelled
as `none`) when the denominator is zero. -/
def pydiv (a b : ℚ) : Option ℚ :=
  if b = 0 then none else some (a / b)

/-- `calcular_wacc` with every division routed through `pydiv`, recording
whether the function can raise. -/
def calcular_wacc_run (D E rD rE T : ℚ) : Option ℚ :=
  if D + E = 0 then some 0
  else
    (pydiv D (D + E)).bind fun wD =>
      (pydiv E (D + E)).bind fun wE =>
        some (wE * rE + wD * rD * (1 - T))

/-- `hamada_relever_beta` with its division routed through `pydiv`. -/
def hamada_relever_beta_run (beta_unlev D E T : ℚ) : Option ℚ :=
  if E = 0 then some beta_unlev
  else (pydiv D E).bind fun r => some (beta_unlev * (1 + (1 - T) * r))

/-- The line-97 delevering with both of its divisions routed through
`pydiv`: first `D / E`, then the division by `1 + (1 - T) * (D / E)`. -/
def beta_unlevered_run (betaL D E T : ℚ) : Option ℚ :=
  (pydiv D E).bind fun r => pydiv betaL (1 + (1 - T) * r)

/-- C3: `calcular_wacc` returns 0 when `D + E = 0`, and otherwise
`(E/(D+E))*rE + (D/(D+E))*rD*(1-T)`. -/
theorem C3_wacc_formula (D E rD rE T : ℚ) :
    (D + E = 0 → calcular_wacc D E rD rE T = 0) ∧
    (D + E ≠ 0 →
      calcular_wacc D E rD rE T =
        (E / (D + E)) * rE + (D / (D + E)) * rD * (1 - T)) := by
  constructor
  · intro h
    simp [calcular_wacc, h]
  · intro h
    simp [calcular_wacc, h]

/-- Witness for C3 at `D = 500000`, `E = 1000000`. -/
theorem C3_wacc_formula_witness :
    (500000 : ℚ) + 1000000 ≠ 0 ∧
    calcular_wacc 500000 1000000 (8/100) (106/1000) (34/100) =
      ((1000000 : ℚ) / (500000 + 1000000)) * (106/1000) +
        ((500000 : ℚ) / (500000 + 1000000)) * (8/100) * (1 - 34/100) :=
  ⟨by norm_num,
   (C3_wacc_formula 500000 1000000 (8/100) (106/1000) (34/100)).2 (by norm_num)⟩

/-- C4: the diagnostic computes `spread = roic - wacc` and
`eva = totalCapital * spread`, and classifies by the first matching band:
`spread > 0.02` strong, `0 < spread ≤ 0.02` marginal, `spread ≤ 0`
destruction; the boundaries `0.02` and `0` land in marginal and
destruction respectively. -/
theorem C4_diagnose :
    (∀ s : ℚ, 2/100 < s → classify s = Classification.ValueCreationStrong) ∧
    (∀ s : ℚ, 0 < s → s ≤ 2/100 →
      classify s = Classification.ValueCreationMarginal) ∧
    (∀ s : ℚ, s ≤ 0 → classify s = Classification.ValueDestruction) ∧
    classify (2/100) = Classification.ValueCreationMarginal ∧
    classify 0 = Classification.ValueDestruction ∧
    (∀ roic w D E : ℚ,
      spread_economico roic w = roic - w ∧
      eva D E (spread_economico roic w) = (D + E) * (roic - w)) := by
  refine ⟨?_, ?_, ?_, ?_, ?_, ?_⟩
  · intro s hs
    simp [classify, hs]
  · intro s hs0 hs2
    simp [classify, not_lt.mpr hs2, hs0]
  · intro s hs
    have h1 : ¬ (2/100 < s) := not_lt.mpr (le_trans hs (by norm_num))
    have h2 : ¬ (0 < s) := not_lt.mpr hs
    simp [classify, h1, h2]
  · norm_num [classify]
  · norm_num [classify]
  · intro roic w D E
    exact ⟨rfl, rfl⟩

/-- Witness for C4 at the boundary `spread = 0.02`. -/
theorem C4_diagnose_witness :
    (0 : ℚ) < 2/100 ∧ (2/100 : ℚ) ≤ 2/100 ∧
    classify (2/100) = Classification.ValueCreationMarginal :=
  ⟨by norm_num, le_refl _,
   C4_diagnose.2.1 (2/100) (by norm_num) (le_refl _)⟩

/-- C5: cost of debt equals the base rate below the 0.5 threshold, equals
`base + (wd - 0.5)^2 * 0.5` at or above it, is continuous at the
threshold, and is strictly increasing for `wd > 0.5`. -/
theorem C5_cost_of_debt :
    (∀ wd base : ℚ, wd < 1/2 → new_kd base wd = base) ∧
    (∀ wd base : ℚ, 1/2 ≤ wd →
      new_kd base wd = base + (wd - 1/2) ^ 2 * (1/2)) ∧
    (∀ base : ℚ, new_kd base (1/2) = base) ∧
    (∀ x y base : ℚ, 1/2 < x → x < y →
      new_kd base x < new_kd base y) := by
  refine ⟨?_, ?_, ?_, ?_⟩
  · intro wd base h
    simp only [new_kd, risk_premium_debt, if_pos h, add_zero]
  · intro wd base h
    simp only [new_kd, risk_premium_debt, if_neg (not_lt.mpr h)]
  · intro base
    norm_num [new_kd, risk_premium_debt]
  · intro x y base hx hxy
    have hy : (1/2 : ℚ) < y := hx.trans hxy
    simp only [new_kd, risk_premium_debt, if_neg (not_lt.mpr hx.le),
      if_neg (not_lt.mpr hy.le)]
    have hsq : (x - 1/2) ^ 2 < (y - 1/2) ^ 2 := by nlinarith
    linarith

/-- Witness for C5: strict increase from `wd = 0.6` to `wd = 0.7`. -/
theorem C5_cost_of_debt_witness :
    (1/2 : ℚ) < 6/10 ∧ (6/10 : ℚ) < 7/10 ∧
    new_kd (8/100) (6/10) < new_kd (8/100) (7/10) :=
  ⟨by norm_num, by norm_num,
   C5_cost_of_debt.2.2.2 (6/10) (7/10) (8/100) (by norm_num) (by norm_num)⟩

/-- C7: WACC is invariant under scaling debt and equity by the same
positive constant. -/
theorem C7_scale_invariance (D E rD rE T k : ℚ) (hk : 0 < k) :
    calcular_wacc (k * D) (k * E) rD rE T = calcular_wacc D E rD rE T := by
  have hsum : k * D + k * E = k * (D + E) := by ring
  by_cases h : D + E = 0
  · simp [calcular_wacc, hsum, h]
  · have h2 : k * D + k * E ≠ 0 := by
      rw [hsum]
      exact mul_ne_zero hk.ne' h
    simp only [calcular_wacc, if_neg h2, if_neg h]
    rw [hsum, mul_div_mul_left D (D + E) hk.ne',
      mul_div_mul_left E (D + E) hk.ne']

/-- Witness for C7 at `k = 3`, `D = 500000`, `E = 1000000`. -/
theorem C7_scale_invariance_witness :
    (0 : ℚ) < 3 ∧
    calcular_wacc (3 * 500000) (3 * 1000000) (8/100) (106/1000) (34/100) =
      calcular_wacc 500000 1000000 (8/100) (106/1000) (34/100) :=
  ⟨by norm_num,
   C7_scale_invariance 500000 1000000 (8/100) (106/1000) (34/100) 3
     (by norm_num)⟩

/-- C6: for tax rate in [0,1], non-negative debt and positive equity,
delevering the relevered beta with the same structure recovers the
original beta; with zero equity, relever returns its input unchanged. -/
theorem C6_roundtrip (b D E T : ℚ) (hT0 : 0 ≤ T) (hT1 : T ≤ 1)
    (hD : 0 ≤ D) (hE : 0 < E) :
    delever_beta (hamada_relever_beta b D E T) D E T = b ∧
    hamada_relever_beta b D 0 T = b := by
  constructor
  · have hnn : 0 ≤ (1 - T) * (D / E) :=
      mul_nonneg (by linarith) (div_nonneg hD hE.le)
    have hden : (0 : ℚ) < 1 + (1 - T) * (D / E) := by linarith
    simp only [hamada_relever_beta, delever_beta, if_neg hE.ne']
    exact mul_div_cancel_right₀ b hden.ne'
  · simp [hamada_relever_beta]

/-- Witness for C6 at `b = 1.1`, `D = 500000`, `E = 1000000`, `T = 0.34`. -/
theorem C6_roundtrip_witness :
    (0 : ℚ) ≤ 34/100 ∧ (34/100 : ℚ) ≤ 1 ∧ (0 : ℚ) ≤ 500000 ∧
    (0 : ℚ) < 1000000 ∧
    (delever_beta
        (hamada_relever_beta (11/10) 500000 1000000 (34/100))
        500000 1000000 (34/100) = 11/10 ∧
      hamada_relever_beta (11/10) 500000 0 (34/100) = 11/10) :=
  ⟨by norm_num, by norm_num, by norm_num, by norm_num,
   C6_roundtrip (11/10) 500000 1000000 (34/100)
     (by norm_num) (by norm_num) (by norm_num) (by norm_num)⟩

/-- C1 counterexample: with non-negative debt 500000, equity 0 and tax
rate 0.34, the delevering of line 97 (as run by Python) divides by zero
and raises, modelled as `none` — it does not yield the beta unchanged. -/
theorem C1_counterexample :
    beta_unlevered_run (11/10) 500000 0 (34/100) = none := by
  simp [beta_unlevered_run, pydiv]

/-- C1 amended: for tax rate in [0,1] and non-negative debt and equity,
WACC evaluation and beta relevering never raise (`isSome`), with zero
total capital yielding WACC 0 and zero equity yielding the beta
unchanged; the line-97 delevering is fault-free whenever equity is
positive, but raises a division fault when equity is zero. -/
theorem C1_amended (b D E rD rE T : ℚ) (hT0 : 0 ≤ T) (hT1 : T ≤ 1)
    (hD : 0 ≤ D) (hE : 0 ≤ E) :
    (calcular_wacc_run D E rD rE T).isSome ∧
    (D + E = 0 → calcular_wacc_run D E rD rE T = some 0) ∧
    (hamada_relever_beta_run b D E T).isSome ∧
    (E = 0 → hamada_relever_beta_run b D E T = some b) ∧
    (0 < E → (beta_unlevered_run b D E T).isSome) ∧
    (E = 0 → beta_unlevered_run b D E T = none) := by
  refine ⟨?_, ?_, ?_, ?_, ?_, ?_⟩
  · by_cases hV : D + E = 0
    · simp [calcular_wacc_run, hV]
    · simp [calcular_wacc_run, pydiv, hV]
  · intro hV
    simp [calcular_wacc_run, hV]
  · by_cases hE0 : E = 0
    · simp [hamada_relever_beta_run, hE0]
    · simp [hamada_relever_beta_run, pydiv, hE0]
  · intro hE0
    simp [hamada_relever_beta_run, hE0]
  · intro hEpos
    have hnn : 0 ≤ (1 - T) * (D / E) :=
      mul_nonneg (by linarith) (div_nonneg hD hEpos.le)
    have hden : (0 : ℚ) < 1 + (1 - T) * (D / E) := by linarith
    simp [beta_unlevered_run, pydiv, hEpos.ne', hden.ne']
  · intro hE0
    simp [beta_unlevered_run, pydiv, hE0]

/-- Witness for C1 amended at the spec's example inputs. -/
theorem C1_amended_witness :
    (0 : ℚ) ≤ 34/100 ∧ (34/100 : ℚ) ≤ 1 ∧ (0 : ℚ) ≤ 500000 ∧
    (0 : ℚ) ≤ 1000000 ∧
    ((calcular_wacc_run 500000 1000000 (8/100) (106/1000) (34/100)).isSome ∧
      ((500000 : ℚ) + 1000000 = 0 →
        calcular_wacc_run 500000 1000000 (8/100) (106/1000) (34/100) =
          some 0) ∧
      (hamada_relever_beta_run (11/10) 500000 1000000 (34/100)).isSome ∧
      ((1000000 : ℚ) = 0 →
        hamada_relever_beta_run (11/10) 500000 1000000 (34/100) =
          some (11/10)) ∧
      ((0 : ℚ) < 1000000 →
        (beta_unlevered_run (11/10) 500000 1000000 (34/100)).isSome) ∧
      ((1000000 : ℚ) = 0 →
        beta_unlevered_run (11/10) 500000 1000000 (34/100) = none)) :=
  ⟨by norm_num, by norm_num, by norm_num, by norm_num,
   C1_amended (11/10) 500000 1000000 (8/100) (106/1000) (34/100)
     (by norm_num) (by norm_num) (by norm_num) (by norm_num)⟩

/-- C2: at the sampled debt weight 0.995 the equity weight 0.005 is below
the 0.01 floor and `de_ratio` is 99, yet the loop body relevers with
`wd*100 = 99.5` and `we*100 = 0.5` (an effective debt/equity ratio of
199), producing beta 132.34 — not the `betaUnlevered * (1 + (1-T)*99)` =
66.34 the claim states.  The substituted ratio is computed but unused. -/
theorem C2_code_eval :
    de_ratio (995/1000) = 99 ∧
    (sim_step 1 (4/100) (10/100) (8/100) (34/100)
        (995/1000)).beta_relevered = 6617/50 ∧
    (6617/50 : ℚ) ≠ 1 * (1 + (1 - 34/100) * 99) := by
  refine ⟨?_, ?_, by norm_num⟩
  · norm_num [ de_ratio]
  · norm_num [sim_step, de_ratio, hamada_relever_beta, risk_premium_debt]

/-- C8 counterexample: at the spec's example inputs the code's WACC is
exactly 331/3750 ≈ 0.08827, which is more than 0.0002 away from the
claimed 0.0887, and EVA is exactly 47600, more than 500 away from the
claimed 46950. -/
theorem C8_counterexample :
    calcular_wacc 500000 1000000 (8/100)
        (calcular_ke_capm (4/100) (11/10) (10/100)) (34/100) = 331/3750 ∧
    (331/3750 : ℚ) < 887/10000 - 2/10000 ∧
    eva 500000 1000000 (spread_economico (12/100) (331/3750)) = 47600 ∧
    (46950 : ℚ) + 500 < 47600 := by
  refine ⟨?_, by norm_num, ?_, by norm_num⟩
  · norm_num [calcular_wacc, calcular_ke_capm]
  · norm_num [eva, spread_economico]

/-- C8 amended: at the example inputs, cost of equity is exactly 0.106,
WACC is exactly 331/3750 ≈ 0.0883, the spread is 119/3750 ≈ 0.0317, the
classification is strong value creation, and EVA is exactly 47600. -/
theorem C8_amended :
    calcular_ke_capm (4/100) (11/10) (10/100) = 106/1000 ∧
    calcular_wacc 500000 1000000 (8/100) (106/1000) (34/100) = 331/3750 ∧
    spread_economico (12/100) (331/3750) = 119/3750 ∧
    classify (119/3750) = Classification.ValueCreationStrong ∧
    eva 500000 1000000 (119/3750) = 47600 := by
  refine ⟨?_, ?_, ?_, ?_, ?_⟩
  · norm_num [calcular_ke_capm]
  · norm_num [calcular_wacc]
  · norm_num [spread_economico]
  · norm_num [classify]
  · norm_num [eva]

/-- C9: with the CAPM checkbox off, the simulated curve is computed from
the fallback constants beta 1, risk-free 0.04 and market return 0.10,
and changing the manual cost of equity changes no point of the curve;
the manual rate reaches only the current-WACC computation. -/
theorem C9_manual_mode (i : AppInputs) (h : i.usar_capm = false) (x : ℚ) :
    curve { i with rE_manual := x } = curve i ∧
    beta_atual i = 1 ∧
    rf_sim i = 4/100 ∧
    rm_sim i = 10/100 ∧
    curve i = leverage_ratios.map
      (sim_step (delever_beta 1 i.D i.E i.T) (4/100) (10/100) i.rD i.T) ∧
    wacc_atual i = calcular_wacc i.D i.E i.rD i.rE_manual i.T := by
  refine ⟨rfl, ?_, ?_, ?_, ?_, ?_⟩
  · simp [beta_atual, h]
  · simp [rf_sim, h]
  · simp [rm_sim, h]
  · simp [curve, beta_unlevered, beta_atual, rf_sim, rm_sim, h]
  · simp [wacc_atual, rE_final, h]

/-- A concrete manual-mode input record, used only to witness C9. -/
def exampleInputsManual : AppInputs :=
  ⟨500000, 1000000, 34/100, 8/100, 12/100, false, 4/100, 11/10, 10/100,
    12/100⟩

/-- Witness for C9 at a concrete manual-mode input. -/
theorem C9_manual_mode_witness :
    exampleInputsManual.usar_capm = false ∧
    (curve { exampleInputsManual with rE_manual := 99/100 } =
        curve exampleInputsManual ∧
      beta_atual exampleInputsManual = 1 ∧
      rf_sim exampleInputsManual = 4/100 ∧
      rm_sim exampleInputsManual = 10/100 ∧
      curve exampleInputsManual = leverage_ratios.map
        (sim_step
          (delever_beta 1 exampleInputsManual.D exampleInputsManual.E
            exampleInputsManual.T)
          (4/100) (10/100) exampleInputsManual.rD exampleInputsManual.T) ∧
      wacc_atual exampleInputsManual =
        calcular_wacc exampleInputsManual.D exampleInputsManual.E
          exampleInputsManual.rD exampleInputsManual.rE_manual
          exampleInputsManual.T) :=
  ⟨rfl, C9_manual_mode exampleInputsManual rfl (99/100)⟩

/-- C10: the sampling grid has 50 points, every sampled equity weight is
at least 0.05, so the 0.01 floor branch of `de_ratio` is never taken and
the relever argument `we * 100` is never zero during a sweep. -/
theorem C10_grid_safe :
    leverage_ratios.length = 50 ∧
    ∀ wd ∈ leverage_ratios,
      5/100 ≤ 1 - wd ∧ ¬ (1 - wd ≤ 1/100) ∧ (1 - wd) * 100 ≠ 0 := by
  constructor
  · rw [leverage_ratios, List.length_map, List.length_range]
  · intro wd hwd
    rw [leverage_ratios] at hwd
    obtain ⟨k, hkmem, hfk⟩ := List.mem_map.mp hwd
    have hk50 : k < 50 := List.mem_range.mp hkmem
    have hk' : k ≤ 49 := by omega
    have hk49 : (k : ℚ) ≤ 49 := by exact_mod_cast hk'
    have hk0 : (0 : ℚ) ≤ (k : ℚ) := Nat.cast_nonneg k
    have hb : wd ≤ 95/100 := by
      rw [← hfk]
      show (95/100 : ℚ) * k / 49 ≤ 95/100
      rw [div_le_iff₀ (by norm_num : (0:ℚ) < 49)]
      nlinarith
    refine ⟨by linarith, ?_, ?_⟩
    · intro hcontra
      linarith
    · intro hcontra
      nlinarith

/-- Witness for C10 at the first grid point, `wd = 0`. -/
theorem C10_grid_safe_witness :
    (0 : ℚ) ∈ leverage_ratios ∧
    (5/100 ≤ 1 - (0 : ℚ) ∧ ¬ ((1 : ℚ) - 0 ≤ 1/100) ∧
      ((1 : ℚ) - 0) * 100 ≠ 0) := by
  have hmem : (0 : ℚ) ∈ leverage_ratios := by
    rw [leverage_ratios]
    exact List.mem_map.mpr ⟨0, List.mem_range.mpr (by norm_num), by simp⟩
  exact ⟨hmem, C10_grid_safe.2 0 hmem⟩

end WaccApp
